import Mathlib

/-
Verification of the FileCodeBox redemption/expiry engine (src/main.py).
The handlers are embedded as pure Lean functions over an explicit metadata
store (a list of Codes records, mirroring the Codes table). Timestamps are
modelled as Int (absolute time), one day as DAY time units. External
collaborators (storage facade, rate limiter return values, code and key
generation) are passed as parameters, as the handlers only consume them.
-/

/-- Metadata record for one share, mirroring the Codes model consumed by
src/main.py (fields used there: id, code, key, type, text, name, size,
count, exp_time). -/
structure Codes where
  id : Nat
  code : String
  key : String
  type : String
  text : String
  name : String
  size : Nat
  count : Int
  exp_time : Int
deriving Repr, DecidableEq

/-- An HTTP error raised by a handler (FastAPI HTTPException). -/
structure HTTPException where
  status_code : Nat
  detail : String
deriving Repr, DecidableEq

/-- The configuration values from settings that the modelled handlers read. -/
structure Settings where
  ERROR_COUNT : Int
  ERROR_MINUTE : Int
  MAX_DAYS : Int
  FILE_SIZE_LIMIT : Nat
deriving Repr, DecidableEq

/-- One day, in the abstract time units of exp_time (datetime.timedelta(days=1)). -/
def DAY : Int := 86400

/-- Lookup of the first record whose code equals the given code: models
(await s.execute(select(Codes).where(Codes.code == code))).scalars().first(). -/
def findCode : List Codes → String → Option Codes
  | [], _ => none
  | r :: rest, c => if r.code = c then some r else findCode rest c

instance {ε α : Type} [DecidableEq ε] [DecidableEq α] : DecidableEq (Except ε α) := fun a b =>
  match a, b with
  | .error x, .error y =>
      if h : x = y then .isTrue (by rw [h]) else .isFalse (by intro hc; cases hc; exact h rfl)
  | .error _, .ok _ => .isFalse (by intro hc; cases hc)
  | .ok _, .error _ => .isFalse (by intro hc; cases hc)
  | .ok x, .ok y =>
      if h : x = y then .isTrue (by rw [h]) else .isFalse (by intro hc; cases hc; exact h rfl)

/-- The data part of a successful redemption response (src/main.py line 144). -/
structure RedeemData where
  type : String
  text : String
  name : String
  code : String
deriving Repr, DecidableEq

/-- Result of one call to the POST / handler: the HTTP result, the metadata
store after the call, and how many error attempts were charged to the
requesting ip on the error limiter (calls to error_ip_limit.add_ip). -/
structure RedeemOutcome where
  result : Except HTTPException RedeemData
  store : List Codes
  errorAttempts : Nat
deriving Repr, DecidableEq

/-- The POST / handler (redeem), src/main.py lines 122-145, translated
statement by statement. get_url stands for storage.get_url; ipAttempts is
the value returned by error_ip_limit.add_ip(ip) in the not-found branch
(it only feeds the error message). -/
def index (st : Settings) (get_url : Codes → String) (store : List Codes)
    (now : Int) (code : String) (ipAttempts : Int) : RedeemOutcome :=
  match findCode store code with
  | none =>
      { result := .error ⟨404, "取件码错误，" ++ toString (st.ERROR_COUNT - ipAttempts)
          ++ "次后将被禁止" ++ toString st.ERROR_MINUTE ++ "分钟"⟩,
        store := store,
        errorAttempts := 1 }
  | some info =>
      if info.exp_time < now ∨ info.count = 0 then
        { result := .error ⟨404, "取件码已失效，请联系寄件人"⟩,
          store := store,
          errorAttempts := 0 }
      else
        { result := .ok ⟨info.type,
            if info.type ≠ "text" then get_url info else info.text,
            info.name, info.code⟩,
          store := store.map fun r =>
            if r.id = info.id then { r with count := info.count - 1 } else r,
          errorAttempts := 0 }

/-- True when the redemption outcome is a success response. -/
def isSuccess (o : RedeemOutcome) : Bool :=
  match o.result with
  | .ok _ => true
  | .error _ => false

/-- The data returned by GET /select: either the text body or a
FileResponse with a file path and download filename. -/
inductive SelectData where
  | textData (detail text : String)
  | fileResponse (filepath filename : String)
deriving Repr, DecidableEq

/-- Result of one call to the GET /select handler. -/
structure SelectOutcome where
  result : Except HTTPException SelectData
  store : List Codes
  errorAttempts : Nat
deriving Repr, DecidableEq

/-- The GET /select handler (get_file), src/main.py lines 158-173.
get_filepath stands for storage.get_filepath. -/
def get_file (get_filepath : String → String) (store : List Codes)
    (code : String) : SelectOutcome :=
  match findCode store code with
  | none =>
      { result := .error ⟨404, "口令不存在，次数过多将被禁止访问"⟩,
        store := store,
        errorAttempts := 1 }
  | some info =>
      if info.type = "text" then
        { result := .ok (.textData "查询成功" info.text),
          store := store,
          errorAttempts := 0 }
      else
        { result := .ok (.fileResponse (get_filepath info.text) info.name),
          store := store,
          errorAttempts := 0 }

/-- The payload of a share request: either form text, or an uploaded file
with its filename, content type and size as reported by storage.get_size. -/
inductive SharePayload where
  | textPayload (text : String)
  | filePayload (filename content_type : String) (size : Nat)
deriving Repr, DecidableEq

/-- Result of one call to the POST /share handler: the HTTP result (code,
key, name on success), the store after the call, and the storage references
whose blob writes were scheduled via background_tasks.add_task. -/
structure ShareOutcome where
  result : Except HTTPException (String × String × String)
  store : List Codes
  scheduled : List String
deriving Repr, DecidableEq

/-- The POST /share handler, src/main.py lines 176-209, translated
statement by statement. code is the value of get_code(s), key the uuid hex,
file_ref the value of storage.get_text(file, key), next_id the id the store
assigns to the inserted row. -/
def share (st : Settings) (now : Int) (code key file_ref : String) (next_id : Nat)
    (store : List Codes) (style : String) (value : Int)
    (payload : SharePayload) : ShareOutcome :=
  let policy : Except HTTPException (Int × Int) :=
    if style = "2" then
      if value > st.MAX_DAYS then
        .error ⟨400, "最大有效天数为" ++ toString st.MAX_DAYS ++ "天"⟩
      else
        .ok (now + value * DAY, -1)
    else if style = "1" then
      if value < 1 then
        .error ⟨400, "最小有效次数为1次"⟩
      else
        .ok (now + DAY, value)
    else
      .ok (now + DAY, -1)
  match policy with
  | .error e => { result := .error e, store := store, scheduled := [] }
  | .ok (exp_time, exp_count) =>
      match payload with
      | .filePayload fname ctype size =>
          if size > st.FILE_SIZE_LIMIT then
            { result := .error ⟨400, "文件过大"⟩, store := store, scheduled := [] }
          else
            { result := .ok (code, key, fname),
              store := store ++ [⟨next_id, code, key, ctype, file_ref, fname,
                size, exp_count, exp_time⟩],
              scheduled := [file_ref] }
      | .textPayload t =>
          { result := .ok (code, key, "文本分享"),
            store := store ++ [⟨next_id, code, key, "text", t, "文本分享",
              t.length, exp_count, exp_time⟩],
            scheduled := [] }

/-- Result of one call to the DELETE admin handler: either the success
detail or a raised exception, with the store after the call and the blob
references handed to storage.delete_file. -/
structure DeleteOutcome where
  result : Except String String
  store : List Codes
  deletedBlobs : List String
deriving Repr, DecidableEq

/-- The DELETE admin handler (admin_delete), src/main.py lines 80-93.
When the lookup returns no record, s.delete(None) raises
sqlalchemy.orm.exc.UnmappedInstanceError, modelled as an error result;
otherwise the found row is deleted and, when its type is not text, its
blob reference is handed to storage.delete_file first. -/
def admin_delete (store : List Codes) (code : String) : DeleteOutcome :=
  match findCode store code with
  | none =>
      { result := .error "UnmappedInstanceError", store := store, deletedBlobs := [] }
  | some file =>
      { result := .ok "删除成功",
        store := store.filter fun r => r.id ≠ file.id,
        deletedBlobs := if file.type ≠ "text" then [file.text] else [] }

/-- Modelled from the spec: the Active invariant of section 3 in its own
words, namely exp_time is in the future AND (count is -1 OR count is
positive). Used only to compare the spec wording with the code. -/
def activeInvariant (now : Int) (r : Codes) : Prop :=
  now < r.exp_time ∧ (r.count = -1 ∨ 0 < r.count)

/-
A two-client interleaving model of the redemption critical section,
src/main.py lines 131-139. Each client performs two store round trips:
a read of the record (the SELECT at line 132), then the check on the value
it read followed by the blind UPDATE count := read value - 1 and commit
(lines 136-139). The record is assumed inside its time window, so only the
count check matters. The shared state is the stored count.
-/

/-- Local state of one concurrent redeem call: the count it read, and its
final result once it committed (true = success response). -/
structure ClientSt where
  localCount : Option Int
  result : Option Bool
deriving Repr, DecidableEq

/-- Shared store count plus the two clients. -/
structure RaceSt where
  count : Int
  c0 : ClientSt
  c1 : ClientSt
deriving Repr, DecidableEq

/-- Atomic events of the interleaving: each client reads, then commits. -/
inductive RaceStep where
  | read0
  | read1
  | commit0
  | commit1
deriving Repr, DecidableEq

/-- The SELECT: the client copies the stored count into its session. -/
def doRead (shared : Int) (c : ClientSt) : ClientSt :=
  match c.localCount with
  | none => { c with localCount := some shared }
  | some _ => c

/-- The check plus UPDATE plus commit: on the value it read, the client
evaluates count = 0 (the expiry check at line 136); if it passes, it writes
back its read value minus 1 (the UPDATE at line 138) and succeeds. -/
def doCommit (shared : Int) (c : ClientSt) : Int × ClientSt :=
  match c.localCount, c.result with
  | some v, none =>
      if v = 0 then (shared, { c with result := some false })
      else (v - 1, { c with result := some true })
  | _, _ => (shared, c)

/-- One interleaving step. -/
def raceStep (s : RaceSt) : RaceStep → RaceSt
  | .read0 => { s with c0 := doRead s.count s.c0 }
  | .read1 => { s with c1 := doRead s.count s.c1 }
  | .commit0 =>
      let p := doCommit s.count s.c0
      { s with count := p.1, c0 := p.2 }
  | .commit1 =>
      let p := doCommit s.count s.c1
      { s with count := p.1, c1 := p.2 }

/-- Run a schedule of interleaving steps. -/
def raceRun (s : RaceSt) (steps : List RaceStep) : RaceSt :=
  steps.foldl raceStep s

/-- Sample settings used by concrete instances below. -/
def stEx : Settings := ⟨5, 10, 7, 100⟩

/-- Sample storage url resolver used by concrete instances below. -/
def urlEx : Codes → String := fun _ => ""

/-- Sample live text record used by concrete instances below. -/
def recEx : Codes := ⟨1, "ab", "k", "text", "hi", "文本分享", 2, 3, 50⟩

/-- Unfolding of the POST / handler when the lookup finds a record. -/
theorem index_found (st : Settings) (g : Codes → String) (store : List Codes)
    (now : Int) (code : String) (ip : Int) (info : Codes)
    (h : findCode store code = some info) :
    index st g store now code ip =
      if info.exp_time < now ∨ info.count = 0 then
        { result := .error ⟨404, "取件码已失效，请联系寄件人"⟩,
          store := store, errorAttempts := 0 }
      else
        { result := .ok ⟨info.type,
            if info.type ≠ "text" then g info else info.text,
            info.name, info.code⟩,
          store := store.map fun r =>
            if r.id = info.id then { r with count := info.count - 1 } else r,
          errorAttempts := 0 } := by
  simp only [index, h]

/-- C1 counterexample: a record with count equal to -2 and exp_time equal to
the current instant redeems successfully although the Active invariant of
the claim (exp_time strictly in the future, and count equal to -1 or
positive) is false for it. -/
theorem index_active_counterexample :
    isSuccess (index stEx urlEx [⟨1, "ab", "k", "text", "hi", "文本分享", 2, -2, 5⟩]
      5 "ab" 0) = true ∧
    ¬ activeInvariant 5 ⟨1, "ab", "k", "text", "hi", "文本分享", 2, -2, 5⟩ := by
  refine ⟨by decide, ?_⟩
  unfold activeInvariant
  decide

/-- C1 amended: the redeem operation returns the payload descriptor iff the
record's exp_time has not passed (now at most exp_time) and its count is
nonzero; negative counts other than -1 also redeem, and a record still
redeems at the exact instant now = exp_time. -/
theorem index_success_iff (st : Settings) (g : Codes → String) (store : List Codes)
    (now : Int) (code : String) (ip : Int) (info : Codes)
    (h : findCode store code = some info) :
    isSuccess (index st g store now code ip) = true ↔
      (now ≤ info.exp_time ∧ info.count ≠ 0) := by
  rw [index_found st g store now code ip info h]
  by_cases hc : info.exp_time < now ∨ info.count = 0
  · rw [if_pos hc]
    simp only [isSuccess]
    constructor
    · intro hfalse
      exact absurd hfalse (by simp)
    · intro hp
      omega
  · rw [if_neg hc]
    simp only [isSuccess]
    constructor
    · intro _
      omega
    · intro _
      trivial

/-- C1 witness: a live record (count 3, exp_time 50, now 10) redeems. -/
theorem index_success_iff_witness :
    isSuccess (index stEx urlEx [recEx] 10 "ab" 0) = true ↔
      ((10 : Int) ≤ 50 ∧ (3 : Int) ≠ 0) :=
  index_success_iff stEx urlEx [recEx] 10 "ab" 0 recEx (by decide)

/-- C3 counterexample: redeeming an unlimited record (count -1) does not
leave the stored count unchanged: it is decremented to -2. -/
theorem index_unlimited_decrement_counterexample :
    isSuccess (index stEx urlEx [⟨1, "ab", "k", "text", "hi", "文本分享", 2, -1, 50⟩]
      10 "ab" 0) = true ∧
    ((index stEx urlEx [⟨1, "ab", "k", "text", "hi", "文本分享", 2, -1, 50⟩]
      10 "ab" 0).store.map fun r => r.count) = [-2] := by
  constructor
  · decide
  · decide

/-- C3 amended: every successful redemption rewrites the store so that the
records whose id differs from the found record are unchanged, and the found
record has only its count field replaced by its read count minus 1; the
decrement is unconditional, applying also when count is -1 (the stored
count then drifts to -2, -3, and so on, and the record stays redeemable
because only count 0 blocks redemption). -/
theorem index_decrement_frame (st : Settings) (g : Codes → String) (store : List Codes)
    (now : Int) (code : String) (ip : Int) (info : Codes)
    (h : findCode store code = some info)
    (hs : isSuccess (index st g store now code ip) = true) :
    (index st g store now code ip).store =
      store.map fun r =>
        if r.id = info.id then { r with count := info.count - 1 } else r := by
  rw [index_found st g store now code ip info h] at hs ⊢
  by_cases hc : info.exp_time < now ∨ info.count = 0
  · rw [if_pos hc] at hs
    exact absurd hs (by simp [isSuccess])
  · rw [if_neg hc]

/-- C3 witness: redeeming the sample record (count 3) rewrites the store to
the same record with count 2. -/
theorem index_decrement_frame_witness :
    (index stEx urlEx [recEx] 10 "ab" 0).store =
      [recEx].map fun r =>
        if r.id = recEx.id then { r with count := recEx.count - 1 } else r :=
  index_decrement_frame stEx urlEx [recEx] 10 "ab" 0 recEx (by decide) (by decide)

/-- C6: when the lookup misses, the POST / handler returns the wrong-code
404 response and charges exactly one error attempt to the requesting ip;
when the lookup finds a record, no error attempt is charged, whatever the
outcome. -/
theorem index_error_charge (st : Settings) (g : Codes → String) (store : List Codes)
    (now : Int) (code : String) (ip : Int) :
    (findCode store code = none →
      index st g store now code ip =
        { result := .error ⟨404, "取件码错误，" ++ toString (st.ERROR_COUNT - ip)
            ++ "次后将被禁止" ++ toString st.ERROR_MINUTE ++ "分钟"⟩,
          store := store, errorAttempts := 1 }) ∧
    (∀ info, findCode store code = some info →
      (index st g store now code ip).errorAttempts = 0) := by
  constructor
  · intro h
    simp only [index, h]
  · intro info h
    rw [index_found st g store now code ip info h]
    by_cases hc : info.exp_time < now ∨ info.count = 0
    · rw [if_pos hc]
    · rw [if_neg hc]

/-- C6 witness: an unknown code on an empty store charges one attempt; a
known code charges none. -/
theorem index_error_charge_witness :
    (index stEx urlEx [] 0 "zz" 0).errorAttempts = 1 ∧
    (index stEx urlEx [recEx] 10 "ab" 0).errorAttempts = 0 :=
  ⟨by rw [(index_error_charge stEx urlEx [] 0 "zz" 0).1 rfl],
   (index_error_charge stEx urlEx [recEx] 10 "ab" 0).2 recEx (by decide)⟩

/-- C7: the 404 response for a record past its exp_time and the 404 response
for a record with count 0 are one and the same failure, with one status code
and one detail string, across any stores, times and settings. -/
theorem index_expired_indistinguishable (st1 st2 : Settings)
    (g1 g2 : Codes → String) (s1 s2 : List Codes) (n1 n2 : Int)
    (c1 c2 : String) (ip1 ip2 : Int) (i1 i2 : Codes)
    (h1 : findCode s1 c1 = some i1) (ht : i1.exp_time < n1)
    (h2 : findCode s2 c2 = some i2) (hc : i2.count = 0) :
    (index st1 g1 s1 n1 c1 ip1).result = (index st2 g2 s2 n2 c2 ip2).result := by
  rw [index_found st1 g1 s1 n1 c1 ip1 i1 h1,
    index_found st2 g2 s2 n2 c2 ip2 i2 h2,
    if_pos (Or.inl ht), if_pos (Or.inr hc)]

/-- C7 witness: a time-expired record and a count-exhausted record produce
equal failures. -/
theorem index_expired_indistinguishable_witness :
    (index stEx urlEx [⟨1, "a", "k", "text", "x", "n", 1, 5, 0⟩] 10 "a" 0).result =
    (index stEx urlEx [⟨2, "b", "k", "text", "y", "n", 1, 0, 100⟩] 10 "b" 0).result :=
  index_expired_indistinguishable stEx stEx urlEx urlEx
    [⟨1, "a", "k", "text", "x", "n", 1, 5, 0⟩]
    [⟨2, "b", "k", "text", "y", "n", 1, 0, 100⟩]
    10 10 "a" "b" 0 0
    ⟨1, "a", "k", "text", "x", "n", 1, 5, 0⟩
    ⟨2, "b", "k", "text", "y", "n", 1, 0, 100⟩
    (by decide) (by decide) (by decide) (by decide)

/-- C2: on the interleaving model of src/main.py lines 131-139, a record with
count 1 and two concurrent redeem calls that both perform their SELECT
before either UPDATE commits yields two success responses, refuting the
claimed exactly-one-success linearizability; the final stored count is 0
because each call blindly writes its stale read value minus 1. -/
theorem race_two_successes :
    (raceRun ⟨1, ⟨none, none⟩, ⟨none, none⟩⟩
      [.read0, .read1, .commit0, .commit1]).c0.result = some true ∧
    (raceRun ⟨1, ⟨none, none⟩, ⟨none, none⟩⟩
      [.read0, .read1, .commit0, .commit1]).c1.result = some true ∧
    (raceRun ⟨1, ⟨none, none⟩, ⟨none, none⟩⟩
      [.read0, .read1, .commit0, .commit1]).count = 0 := by
  decide

/-- C9: GET /select returns the stored payload for every code whose record
exists, with no condition on exp_time or count, leaves the store unchanged,
and charges no error attempt. -/
theorem get_file_no_expiry_check (gp : String → String) (store : List Codes)
    (code : String) (info : Codes) (h : findCode store code = some info) :
    (get_file gp store code).result =
      .ok (if info.type = "text" then .textData "查询成功" info.text
        else .fileResponse (gp info.text) info.name) ∧
    (get_file gp store code).store = store ∧
    (get_file gp store code).errorAttempts = 0 := by
  simp only [get_file, h]
  by_cases ht : info.type = "text"
  · rw [if_pos ht, if_pos ht]
    exact ⟨rfl, rfl, rfl⟩
  · rw [if_neg ht, if_neg ht]
    exact ⟨rfl, rfl, rfl⟩

/-- C9 witness: a record that is both past its exp_time and count-exhausted
is still served by GET /select, and the store is untouched. -/
theorem get_file_no_expiry_check_witness :
    (get_file (fun s => s) [⟨1, "w", "k", "text", "old", "n", 3, 0, 0⟩] "w").result =
      .ok (if ("text" : String) = "text" then .textData "查询成功" "old"
        else .fileResponse ((fun s => s) "old") "n") ∧
    (get_file (fun s => s) [⟨1, "w", "k", "text", "old", "n", 3, 0, 0⟩] "w").store =
      [⟨1, "w", "k", "text", "old", "n", 3, 0, 0⟩] ∧
    (get_file (fun s => s) [⟨1, "w", "k", "text", "old", "n", 3, 0, 0⟩] "w").errorAttempts = 0 :=
  get_file_no_expiry_check (fun s => s) [⟨1, "w", "k", "text", "old", "n", 3, 0, 0⟩]
    "w" ⟨1, "w", "k", "text", "old", "n", 3, 0, 0⟩ (by decide)

/-- C10: the DELETE admin handler raises (models the
UnmappedInstanceError from deleting the None lookup result) when no record
matches the code, leaving the store unchanged; when a record matches, it
returns the success detail, removes that record, and deletes its blob
exactly when its type is not text. -/
theorem admin_delete_spec (store : List Codes) (code : String) :
    (findCode store code = none →
      (admin_delete store code).result = .error "UnmappedInstanceError" ∧
      (admin_delete store code).store = store) ∧
    (∀ info, findCode store code = some info →
      admin_delete store code =
        { result := .ok "删除成功",
          store := store.filter fun r => r.id ≠ info.id,
          deletedBlobs := if info.type ≠ "text" then [info.text] else [] }) := by
  constructor
  · intro h
    simp only [admin_delete, h]
    exact ⟨trivial, trivial⟩
  · intro info h
    simp only [admin_delete, h]

/-- C10 witness: deleting a missing code errors and mutates nothing;
deleting an existing file record removes it and its blob. -/
theorem admin_delete_spec_witness :
    ((admin_delete [] "zz").result = .error "UnmappedInstanceError" ∧
      (admin_delete [] "zz").store = []) ∧
    admin_delete [⟨1, "f", "k", "application/pdf", "blobref", "doc.pdf", 9, 1, 50⟩] "f" =
      { result := .ok "删除成功",
        store := [⟨1, "f", "k", "application/pdf", "blobref", "doc.pdf", 9, 1, 50⟩].filter
          fun r => r.id ≠ (1 : Nat),
        deletedBlobs := if ("application/pdf" : String) ≠ "text" then ["blobref"] else [] } :=
  ⟨(admin_delete_spec [] "zz").1 rfl,
   (admin_delete_spec [⟨1, "f", "k", "application/pdf", "blobref", "doc.pdf", 9, 1, 50⟩] "f").2
     ⟨1, "f", "k", "application/pdf", "blobref", "doc.pdf", 9, 1, 50⟩ (by decide)⟩

/-- C4: the share handler computes count and exp_time exactly per the Share
Policy: count-limited (style 1) with value at least 1 stores count = value
and exp_time = now + 1 day, value below 1 is rejected with no record; day
limited (style 2) with value at most MAX_DAYS stores count = -1 and
exp_time = now + value days, larger values are rejected with no record; any
other style stores count = -1 and exp_time = now + 1 day. -/
theorem share_policy (st : Settings) (now : Int) (code key fref : String)
    (nid : Nat) (store : List Codes) (t : String) :
    (∀ value : Int, 1 ≤ value →
      share st now code key fref nid store "1" value (.textPayload t) =
        { result := .ok (code, key, "文本分享"),
          store := store ++ [⟨nid, code, key, "text", t, "文本分享",
            t.length, value, now + DAY⟩],
          scheduled := [] }) ∧
    (∀ value : Int, value ≤ 0 → ∀ p : SharePayload,
      share st now code key fref nid store "1" value p =
        { result := .error ⟨400, "最小有效次数为1次"⟩,
          store := store, scheduled := [] }) ∧
    (∀ value : Int, value ≤ st.MAX_DAYS →
      share st now code key fref nid store "2" value (.textPayload t) =
        { result := .ok (code, key, "文本分享"),
          store := store ++ [⟨nid, code, key, "text", t, "文本分享",
            t.length, -1, now + value * DAY⟩],
          scheduled := [] }) ∧
    (∀ value : Int, st.MAX_DAYS < value → ∀ p : SharePayload,
      share st now code key fref nid store "2" value p =
        { result := .error ⟨400, "最大有效天数为" ++ toString st.MAX_DAYS ++ "天"⟩,
          store := store, scheduled := [] }) ∧
    (∀ (sty : String) (value : Int), sty ≠ "1" → sty ≠ "2" →
      share st now code key fref nid store sty value (.textPayload t) =
        { result := .ok (code, key, "文本分享"),
          store := store ++ [⟨nid, code, key, "text", t, "文本分享",
            t.length, -1, now + DAY⟩],
          scheduled := [] }) := by
  refine ⟨?_, ?_, ?_, ?_, ?_⟩
  · intro v hv
    simp only [share]
    rw [if_neg (by omega : ¬ v < 1)]
    simp
  · intro v hv p
    simp only [share]
    rw [if_pos (by omega : v < 1)]
    simp
  · intro v hv
    simp only [share]
    rw [if_neg (by omega : ¬ v > st.MAX_DAYS)]
    simp
  · intro v hv p
    simp only [share]
    rw [if_pos (by omega : v > st.MAX_DAYS)]
    simp
  · intro sty v h1 h2
    simp only [share]
    rw [if_neg h2, if_neg h1]

/-- C4 witness: the five policy cases at concrete inputs. -/
theorem share_policy_witness :
    (share stEx 0 "c" "k" "" 1 [] "1" 3 (.textPayload "hi") =
      { result := .ok ("c", "k", "文本分享"),
        store := [] ++ [⟨1, "c", "k", "text", "hi", "文本分享",
          "hi".length, 3, 0 + DAY⟩],
        scheduled := [] }) ∧
    (share stEx 0 "c" "k" "" 1 [] "1" 0 (.textPayload "hi") =
      { result := .error ⟨400, "最小有效次数为1次"⟩,
        store := [], scheduled := [] }) ∧
    (share stEx 0 "c" "k" "" 1 [] "2" 5 (.textPayload "hi") =
      { result := .ok ("c", "k", "文本分享"),
        store := [] ++ [⟨1, "c", "k", "text", "hi", "文本分享",
          "hi".length, -1, 0 + 5 * DAY⟩],
        scheduled := [] }) ∧
    (share stEx 0 "c" "k" "" 1 [] "2" 8 (.textPayload "hi") =
      { result := .error ⟨400, "最大有效天数为" ++ toString stEx.MAX_DAYS ++ "天"⟩,
        store := [], scheduled := [] }) ∧
    (share stEx 0 "c" "k" "" 1 [] "0" 9 (.textPayload "hi") =
      { result := .ok ("c", "k", "文本分享"),
        store := [] ++ [⟨1, "c", "k", "text", "hi", "文本分享",
          "hi".length, -1, 0 + DAY⟩],
        scheduled := [] }) :=
  ⟨(share_policy stEx 0 "c" "k" "" 1 [] "hi").1 3 (by decide),
   (share_policy stEx 0 "c" "k" "" 1 [] "hi").2.1 0 (by decide) (.textPayload "hi"),
   (share_policy stEx 0 "c" "k" "" 1 [] "hi").2.2.1 5 (by decide),
   (share_policy stEx 0 "c" "k" "" 1 [] "hi").2.2.2.1 8 (by decide) (.textPayload "hi"),
   (share_policy stEx 0 "c" "k" "" 1 [] "hi").2.2.2.2 "0" 9 (by decide) (by decide)⟩

/-- C5 counterexample: a share request whose file is over the size limit but
whose policy is also invalid (style 1, value 0) fails with the policy error,
not with the 文件过大 size error, so an oversize request does not always
signal PayloadTooLarge. -/
theorem share_oversize_policy_precedence_counterexample :
    (200 : Nat) > stEx.FILE_SIZE_LIMIT ∧
    (share stEx 0 "c" "k" "f" 1 [] "1" 0
      (.filePayload "a.bin" "application/x" 200)).result =
      .error ⟨400, "最小有效次数为1次"⟩ ∧
    (share stEx 0 "c" "k" "f" 1 [] "1" 0
      (.filePayload "a.bin" "application/x" 200)).result ≠
      .error ⟨400, "文件过大"⟩ := by
  refine ⟨by decide, by decide, by decide⟩

/-- C5 amended: a file payload above FILE_SIZE_LIMIT makes share fail with
the 文件过大 error provided the style and value pass the policy checks (an
invalid policy is rejected first with its own error); in every failing
share call, whatever the validation error, the store is returned unchanged,
no record is created and no blob write is scheduled. -/
theorem share_size_check (st : Settings) (now : Int) (code key fref : String)
    (nid : Nat) (store : List Codes) (style : String) (value : Int) :
    (∀ fname ctype size, st.FILE_SIZE_LIMIT < size →
      (style = "2" → value ≤ st.MAX_DAYS) →
      (style = "1" → 1 ≤ value) →
      share st now code key fref nid store style value
        (.filePayload fname ctype size) =
        { result := .error ⟨400, "文件过大"⟩, store := store, scheduled := [] }) ∧
    (∀ (p : SharePayload) (e : HTTPException),
      (share st now code key fref nid store style value p).result = .error e →
      (share st now code key fref nid store style value p).store = store ∧
      (share st now code key fref nid store style value p).scheduled = []) := by
  constructor
  · intro fname ctype size hsize hday hcount
    by_cases hs2 : style = "2"
    · simp [share, hs2, (by have := hday hs2; omega : ¬ value > st.MAX_DAYS),
        (by omega : size > st.FILE_SIZE_LIMIT)]
    · by_cases hs1 : style = "1"
      · simp [share, hs1, hs2, (by have := hcount hs1; omega : ¬ value < 1),
          (by omega : size > st.FILE_SIZE_LIMIT)]
      · simp [share, hs1, hs2, (by omega : size > st.FILE_SIZE_LIMIT)]
  · intro p e h
    by_cases hs2 : style = "2"
    · by_cases hday : value > st.MAX_DAYS
      · simp [share, hs2, hday]
      · cases p with
        | filePayload fn ct sz =>
            by_cases hsz : sz > st.FILE_SIZE_LIMIT
            · simp [share, hs2, hday, hsz]
            · exfalso
              simp [share, hs2, hday, hsz] at h
        | textPayload tx =>
            exfalso
            simp [share, hs2, hday] at h
    · by_cases hs1 : style = "1"
      · by_cases hval : value < 1
        · simp [share, hs1, hs2, hval]
        · cases p with
          | filePayload fn ct sz =>
              by_cases hsz : sz > st.FILE_SIZE_LIMIT
              · simp [share, hs1, hs2, hval, hsz]
              · exfalso
                simp [share, hs1, hs2, hval, hsz] at h
          | textPayload tx =>
              exfalso
              simp [share, hs1, hs2, hval] at h
      · cases p with
        | filePayload fn ct sz =>
            by_cases hsz : sz > st.FILE_SIZE_LIMIT
            · simp [share, hs1, hs2, hsz]
            · exfalso
              simp [share, hs1, hs2, hsz] at h
        | textPayload tx =>
            exfalso
            simp [share, hs1, hs2] at h

/-- C5 witness: an oversize file with a valid policy fails with 文件过大 and
creates nothing; the same error outcome leaves the store unchanged. -/
theorem share_size_check_witness :
    (share stEx 0 "c" "k" "f" 1 [] "2" 5
      (.filePayload "a.bin" "application/x" 200) =
      { result := .error ⟨400, "文件过大"⟩, store := [], scheduled := [] }) ∧
    ((share stEx 0 "c" "k" "f" 1 [] "2" 5
      (.filePayload "a.bin" "application/x" 200)).store = [] ∧
     (share stEx 0 "c" "k" "f" 1 [] "2" 5
      (.filePayload "a.bin" "application/x" 200)).scheduled = []) :=
  ⟨(share_size_check stEx 0 "c" "k" "f" 1 [] "2" 5).1 "a.bin" "application/x" 200
      (by decide) (fun _ => by decide) (fun _ => by decide),
   (share_size_check stEx 0 "c" "k" "f" 1 [] "2" 5).2
      (.filePayload "a.bin" "application/x" 200) ⟨400, "文件过大"⟩ (by decide)⟩

/-- C8: sharing text hello with style day-limited and value 1 creates a
record with count -1; a redeem before exp_time returns the text descriptor;
a second redeem before exp_time also succeeds; a redeem after exp_time has
passed returns the 取件码已失效 failure. -/
theorem scenario_hello (st : Settings) (g : Codes → String)
    (now t1 t2 t3 ip1 ip2 ip3 : Int)
    (hmax : 1 ≤ st.MAX_DAYS) (h1 : t1 ≤ now + DAY) (h2 : t2 ≤ now + DAY)
    (h3 : now + DAY < t3) :
    ((share st now "c" "k" "" 1 [] "2" 1 (.textPayload "hello")).store.map
      fun r => r.count) = [-1] ∧
    (index st g (share st now "c" "k" "" 1 [] "2" 1 (.textPayload "hello")).store
      t1 "c" ip1).result = .ok ⟨"text", "hello", "文本分享", "c"⟩ ∧
    (index st g (index st g
      (share st now "c" "k" "" 1 [] "2" 1 (.textPayload "hello")).store
      t1 "c" ip1).store t2 "c" ip2).result = .ok ⟨"text", "hello", "文本分享", "c"⟩ ∧
    (index st g (index st g (index st g
      (share st now "c" "k" "" 1 [] "2" 1 (.textPayload "hello")).store
      t1 "c" ip1).store t2 "c" ip2).store t3 "c" ip3).result =
      .error ⟨404, "取件码已失效，请联系寄件人"⟩ := by
  have hshare : (share st now "c" "k" "" 1 [] "2" 1 (.textPayload "hello")).store =
      [⟨1, "c", "k", "text", "hello", "文本分享", "hello".length, -1, now + 1 * DAY⟩] := by
    simp only [share]
    rw [if_neg (by omega : ¬ (1 : Int) > st.MAX_DAYS)]
    simp
  have hf1 : findCode
      [⟨1, "c", "k", "text", "hello", "文本分享", "hello".length, -1, now + 1 * DAY⟩] "c" =
      some ⟨1, "c", "k", "text", "hello", "文本分享", "hello".length, -1, now + 1 * DAY⟩ := by
    simp [findCode]
  have hf2 : findCode
      [⟨1, "c", "k", "text", "hello", "文本分享", "hello".length, -2, now + 1 * DAY⟩] "c" =
      some ⟨1, "c", "k", "text", "hello", "文本分享", "hello".length, -2, now + 1 * DAY⟩ := by
    simp [findCode]
  have hf3 : findCode
      [⟨1, "c", "k", "text", "hello", "文本分享", "hello".length, -3, now + 1 * DAY⟩] "c" =
      some ⟨1, "c", "k", "text", "hello", "文本分享", "hello".length, -3, now + 1 * DAY⟩ := by
    simp [findCode]
  have e1 : index st g
      [⟨1, "c", "k", "text", "hello", "文本分享", "hello".length, -1, now + 1 * DAY⟩]
      t1 "c" ip1 =
      { result := .ok ⟨"text", "hello", "文本分享", "c"⟩,
        store := [⟨1, "c", "k", "text", "hello", "文本分享", "hello".length, -2,
          now + 1 * DAY⟩],
        errorAttempts := 0 } := by
    rw [index_found st g _ t1 "c" ip1 _ hf1,
      if_neg (by omega : ¬ (now + 1 * DAY < t1 ∨ (-1 : Int) = 0))]
    rfl
  have e2 : index st g
      [⟨1, "c", "k", "text", "hello", "文本分享", "hello".length, -2, now + 1 * DAY⟩]
      t2 "c" ip2 =
      { result := .ok ⟨"text", "hello", "文本分享", "c"⟩,
        store := [⟨1, "c", "k", "text", "hello", "文本分享", "hello".length, -3,
          now + 1 * DAY⟩],
        errorAttempts := 0 } := by
    rw [index_found st g _ t2 "c" ip2 _ hf2,
      if_neg (by omega : ¬ (now + 1 * DAY < t2 ∨ (-2 : Int) = 0))]
    rfl
  have e3 : (index st g
      [⟨1, "c", "k", "text", "hello", "文本分享", "hello".length, -3, now + 1 * DAY⟩]
      t3 "c" ip3).result = .error ⟨404, "取件码已失效，请联系寄件人"⟩ := by
    rw [index_found st g _ t3 "c" ip3 _ hf3,
      if_pos (Or.inl (by omega : now + 1 * DAY < t3))]
  refine ⟨?_, ?_, ?_, ?_⟩
  · rw [hshare]
    rfl
  · rw [hshare, e1]
  · rw [hshare, e1, e2]
  · rw [hshare, e1, e2, e3]

/-- C8 witness: the scenario at time 0 with redeems at times 100, 200 and
86401 (just past the one-day exp_time). -/
theorem scenario_hello_witness :
    ((share stEx 0 "c" "k" "" 1 [] "2" 1 (.textPayload "hello")).store.map
      fun r => r.count) = [-1] ∧
    (index stEx urlEx (share stEx 0 "c" "k" "" 1 [] "2" 1 (.textPayload "hello")).store
      100 "c" 0).result = .ok ⟨"text", "hello", "文本分享", "c"⟩ ∧
    (index stEx urlEx (index stEx urlEx
      (share stEx 0 "c" "k" "" 1 [] "2" 1 (.textPayload "hello")).store
      100 "c" 0).store 200 "c" 0).result = .ok ⟨"text", "hello", "文本分享", "c"⟩ ∧
    (index stEx urlEx (index stEx urlEx (index stEx urlEx
      (share stEx 0 "c" "k" "" 1 [] "2" 1 (.textPayload "hello")).store
      100 "c" 0).store 200 "c" 0).store 86401 "c" 0).result =
      .error ⟨404, "取件码已失效，请联系寄件人"⟩ :=
  scenario_hello stEx urlEx 0 100 200 86401 0 0 0
    (by decide) (by decide) (by decide) (by decide)
